import Mathlib

/-!
# Verification of the BitCraps device-test orchestrator

A shallow embedding, in Lean 4, of the Python device-test orchestration code
(`scripts/device-testing/orchestrator.py` and
`scripts/device-testing/performance_monitor.py`), together with theorems
settling the specification claims about it.

Modelling conventions:
* Python strings handled character-by-character (splitting, stripping,
  substring tests, `int()` / `float()` parsing) are embedded as `List Char`
  with executable primitives mirroring the Python string methods used.
* Python `float` arithmetic is embedded as exact rational arithmetic (`Rat`);
  the Python `statistics` module itself computes means/variances exactly.
  Decimal formatting (`:.1f`, `:.0f`) is embedded as round-half-to-even.
* Fallible Python operations (subprocess calls, `int()` on a bad string,
  indexing that can raise) return `Option`; a caught exception is the `none`
  branch of the corresponding `match`.
* The external world (subprocess stdout, timeouts, wall-clock readings) is an
  explicit environment value passed to each operation.
* Thread-pool execution is serialised: each submitted task body runs as an
  atomic step.  The result-list appends and per-device record updates of
  distinct tasks commute (proved via frame lemmas), so the serialised model
  realises every interleaving-independent property claimed.
-/

/-! ## Python string primitives over `List Char` -/

/-- The characters Python's `str.strip()` removes (the whitespace actually
occurring in the modelled subprocess outputs). -/
def isPyWhitespace (c : Char) : Bool :=
  c = ' ' || c = '\t' || c = '\n' || c = '\r'

/-- Python `s.strip()`. -/
def pyStrip (s : List Char) : List Char :=
  ((s.dropWhile isPyWhitespace).reverse.dropWhile isPyWhitespace).reverse

/-- Python `s.split(sep)` for a single-character separator. -/
def splitOnChar (sep : Char) : List Char → List (List Char)
  | [] => [[]]
  | c :: rest =>
    if c = sep then
      [] :: splitOnChar sep rest
    else
      match splitOnChar sep rest with
      | [] => [[c]]
      | h :: t => (c :: h) :: t

/-- Whether `sub` is a prefix of `s` (decidable, executable). -/
def isPrefixOfList : List Char → List Char → Bool
  | [], _ => true
  | _ :: _, [] => false
  | a :: as, b :: bs => a = b && isPrefixOfList as bs

/-- Python `sub in s` (substring containment). -/
def containsSub (sub : List Char) : List Char → Bool
  | [] => isPrefixOfList sub []
  | c :: rest => isPrefixOfList sub (c :: rest) || containsSub sub rest

/-- If `sub` is a prefix of `s`, the remainder of `s` after it. -/
def stripPrefixSub : List Char → List Char → Option (List Char)
  | [], s => some s
  | _ :: _, [] => none
  | a :: as, b :: bs => if a = b then stripPrefixSub as bs else none

/-- Fueled worker for multi-character `str.split`; the fuel is always
instantiated to more than the length of the string being split. -/
def splitSubFuel (sep : List Char) : Nat → List Char → List (List Char)
  | 0, s => [s]
  | _ + 1, [] => [[]]
  | fuel + 1, c :: rest =>
    match stripPrefixSub sep (c :: rest) with
    | some tail => [] :: splitSubFuel sep fuel tail
    | none =>
      match splitSubFuel sep fuel rest with
      | [] => [[c]]
      | h :: t => (c :: h) :: t

/-- Python `s.split(sep)` for a multi-character separator. -/
def pySplitSub (sep s : List Char) : List (List Char) :=
  match sep with
  | [] => [s]
  | _ :: _ => splitSubFuel sep (s.length + 1) s

/-- Python `s.split()` (split on whitespace runs, dropping empty fields). -/
def pyWhitespaceSplit (s : List Char) : List (List Char) :=
  (splitOnChar ' ' (s.map (fun c => if isPyWhitespace c then ' ' else c))).filter
    (fun f => !f.isEmpty)

/-- Decimal digit value. -/
def digitVal (c : Char) : Option Nat :=
  if '0' ≤ c && c ≤ '9' then some (c.toNat - '0'.toNat) else none

/-- Value of a non-empty all-digit string; `none` otherwise. -/
def digitsVal : List Char → Option Nat
  | [] => none
  | [c] => digitVal c
  | c :: rest =>
    match digitVal c, digitsVal rest with
    | some d, some n => some (d * 10 ^ rest.length + n)
    | _, _ => none

/-- Python `int(s)`: optional surrounding whitespace, optional sign, digits;
raises (`none`) otherwise. -/
def pyIntOf (s : List Char) : Option Int :=
  match pyStrip s with
  | '-' :: rest => (digitsVal rest).map (fun n => -(n : Int))
  | '+' :: rest => (digitsVal rest).map (fun n => (n : Int))
  | t => (digitsVal t).map (fun n => (n : Int))

/-- Python `float(s)` restricted to plain decimal literals
(optional sign, `digits`, `digits.digits`, `digits.`, `.digits`);
the subprocess outputs parsed by the code only contain these forms. -/
def pyFloatOf (s : List Char) : Option Rat :=
  let core : List Char → Option Rat := fun t =>
    match splitOnChar '.' t with
    | [ip] => (digitsVal ip).map (fun n => (n : Rat))
    | [ip, fp] =>
      match ip, fp with
      | [], [] => none
      | [], _ => (digitsVal fp).map (fun f => (f : Rat) / (10 : Rat) ^ fp.length)
      | _, [] => (digitsVal ip).map (fun n => (n : Rat))
      | _, _ =>
        match digitsVal ip, digitsVal fp with
        | some n, some f => some ((n : Rat) + (f : Rat) / (10 : Rat) ^ fp.length)
        | _, _ => none
    | _ => none
  match pyStrip s with
  | '-' :: rest => (core rest).map (fun q => -q)
  | '+' :: rest => core rest
  | t => core t

/-- Lines of a block of subprocess stdout (Python `s.split('\n')`). -/
def splitLines (s : List Char) : List (List Char) :=
  splitOnChar '\n' s

/-- Round a rational to the nearest integer, ties to even (the rounding of
Python's fixed-point float formatting). -/
def roundHalfEven (q : Rat) : Int :=
  let f : Int := ⌊q⌋
  let frac : Rat := q - (f : Rat)
  if frac < 1 / 2 then f
  else if 1 / 2 < frac then f + 1
  else if f % 2 = 0 then f else f + 1

example : splitOnChar ':' "  level: 50".data = ["  level".data, " 50".data] := by decide
example : pyIntOf " 50".data = some 50 := by decide
example : pyIntOf " abc".data = none := by decide
example : containsSub "level:".data "  level: 50".data = true := by decide
example : containsSub "level:".data "  temperature: 250".data = false := by decide
example : roundHalfEven (2000 / 3 : Rat) = 667 := by norm_num [roundHalfEven]
example : roundHalfEven (5 / 2 : Rat) = 2 := by norm_num [roundHalfEven]

/-! ## Data model (orchestrator.py)

`Device`, `TestResult` and the test-suite entries (`TestSpec` in the spec's
vocabulary; plain dicts with `name`/`timeout`/`description` in the code). -/

/-- Source `orchestrator.Device`: a test device.  `battery_level` is a Python `int`
(default `-1`); `temperature` is a Python float (exact rationals here). -/
structure Device where
  id : String
  platform : String
  name : String
  os_version : String
  ble_version : String
  status : String := "idle"
  battery_level : Int := -1
  temperature : Rat := 0
deriving DecidableEq, Repr

/-- One entry of `TestRunner._load_test_suite` (the spec's `TestSpec`). -/
structure TestSpec where
  name : String
  timeout : Nat
  description : String
deriving DecidableEq, Repr

/-- A value of the free-form `metrics: Dict[str, any]` map
(ints, floats or strings in the code). -/
inductive MetricValue
  | int (i : Int)
  | num (q : Rat)
  | str (s : String)
deriving DecidableEq, Repr

/-- The `metrics` dict: association list in insertion order. -/
abbrev Metrics := List (String × MetricValue)

/-- Python dict assignment `d[k] = v`: overwrite in place if the key exists,
append otherwise. -/
def setKey : Metrics → String → MetricValue → Metrics
  | [], k, v => [(k, v)]
  | (k', v') :: rest, k, v =>
    if k' = k then (k, v) :: rest else (k', v') :: setKey rest k v

/-- Association-list lookup (first binding wins, as in a Python dict where
keys are unique). -/
def alookup {α : Type} : List (String × α) → String → Option α
  | [], _ => none
  | (k, v) :: rest, i => if k = i then some v else alookup rest i

/-- Source `orchestrator.TestResult`. -/
structure TestResult where
  device_id : String
  test_name : String
  success : Bool
  duration : Rat
  timestamp : String
  output : String
  metrics : Metrics
deriving DecidableEq, Repr

/-- Source `TestRunner._load_test_suite()`: the fixed suite configuration. -/
def load_test_suite : List TestSpec :=
  [ { name := "BLEDiscoveryTest", timeout := 30,
      description := "Test BLE device discovery" },
    { name := "ConnectionStabilityTest", timeout := 60,
      description := "Test connection stability over time" },
    { name := "MeshFormationTest", timeout := 120,
      description := "Test mesh network formation" },
    { name := "ConsensusTest", timeout := 90,
      description := "Test consensus protocol" },
    { name := "BatteryDrainTest", timeout := 300,
      description := "Test battery consumption" } ]

/-! ## Device registry and status refresh (orchestrator.DeviceManager)

`DeviceManager.devices` is a `Dict[str, Device]`, embedded as an association
list in insertion order.  `update_device_status` queries the platform
adapter (a subprocess) and parses its stdout, assigning the parsed fields to
the device record *in place*, line by line; any exception is caught and
logged, leaving the record as mutated so far. -/

/-- A device registry: `DeviceManager.devices`. -/
abbrev Registry := List (String × Device)

/-- The stdout of a status-query subprocess, or `none` when the subprocess
call itself raised (timeout / command error). -/
abbrev StatusQuery := Option (List Char)

/-- The `for line in result.stdout.split('\n')` loop body of
`DeviceManager._update_android_status`: a line containing `level:` assigns
`battery_level`, else a line containing `temperature:` assigns `temperature`
(tenths of a degree); a failed `int()` raises, aborting the remaining lines.
Returns the device as mutated so far plus whether an exception was raised. -/
def updateAndroidStatusLines : Device → List (List Char) → Device × Bool
  | d, [] => (d, false)
  | d, line :: rest =>
    if containsSub "level:".data line then
      match pyIntOf ((splitOnChar ':' line).getD 1 []) with
      | some v => updateAndroidStatusLines { d with battery_level := v } rest
      | none => (d, true)
    else if containsSub "temperature:".data line then
      match pyIntOf ((splitOnChar ':' line).getD 1 []) with
      | some t =>
        updateAndroidStatusLines { d with temperature := (t : Rat) / 10 } rest
      | none => (d, true)
    else
      updateAndroidStatusLines d rest

/-- Source `DeviceManager._update_android_status`: run `adb shell dumpsys battery`
and parse its output.  A subprocess failure (`none`) leaves the record
untouched; all exceptions are caught. -/
def updateAndroidStatus (d : Device) (query : StatusQuery) : Device × Bool :=
  match query with
  | none => (d, true)
  | some stdout => updateAndroidStatusLines d (splitLines stdout)

/-- The per-line body of `DeviceManager._update_ios_status`: a line containing
`BatteryCurrentCapacity` assigns `battery_level` from the field after the
first `:` (an `IndexError` on a line without `:` or a failed `int()` raises,
aborting the loop). -/
def updateIOSStatusLines : Device → List (List Char) → Device × Bool
  | d, [] => (d, false)
  | d, line :: rest =>
    if containsSub "BatteryCurrentCapacity".data line then
      match (splitOnChar ':' line).get? 1 with
      | none => (d, true)
      | some field =>
        match pyIntOf field with
        | some v => updateIOSStatusLines { d with battery_level := v } rest
        | none => (d, true)
    else
      updateIOSStatusLines d rest

/-- Source `DeviceManager._update_ios_status`. -/
def updateIOSStatus (d : Device) (query : StatusQuery) : Device × Bool :=
  match query with
  | none => (d, true)
  | some stdout => updateIOSStatusLines d (splitLines stdout)

/-- The platform dispatch of `DeviceManager.update_device_status` on one
device record. -/
def updateStatusPlatform (d : Device) (query : StatusQuery) : Device × Bool :=
  if d.platform = "android" then updateAndroidStatus d query
  else if d.platform = "ios" then updateIOSStatus d query
  else (d, false)

/-- Replace the value stored under `device_id` (if any) by its refreshed
record, leaving every other entry untouched. -/
def updateEntries (device_id : String) (query : StatusQuery) :
    Registry → Registry
  | [] => []
  | (k, d) :: rest =>
    if k = device_id then
      (k, (updateStatusPlatform d query).1) :: updateEntries device_id query rest
    else
      (k, d) :: updateEntries device_id query rest

/-- Source `DeviceManager.update_device_status(device_id)`: no-op when the id is
unknown, otherwise refresh that device's record in place (the registry entry
is the same object the callers hold). -/
def update_device_status (mgr : Registry) (device_id : String)
    (query : StatusQuery) : Registry :=
  match alookup mgr device_id with
  | none => mgr
  | some _ => updateEntries device_id query mgr

/-! ## Test execution (orchestrator.TestRunner)

Each subprocess invocation either returns stdout, exceeds its `timeout=`
argument (`subprocess.TimeoutExpired`), or raises some other exception;
`_run_android_test` / `_run_ios_test` catch both and convert them to a
failed `(success, output, metrics)` triple. -/

/-- Outcome of one `subprocess.run` call made during a test execution. -/
inductive SubprocessOutcome
  | ok (stdout : List Char)
  | timedOut
  | err (msg : String)
deriving DecidableEq, Repr

/-- The external world of one `run_test_on_device` execution: the stdout (or
failure) of each subprocess it performs, plus its wall-clock readings.
`clearLogcat`/`dumpLogcat` are only consulted on the Android path. -/
structure ExecEnv where
  preQuery : StatusQuery
  clearLogcat : SubprocessOutcome
  testProc : SubprocessOutcome
  dumpLogcat : SubprocessOutcome
  postQuery : StatusQuery
  timestamp : String
  duration : Rat
deriving Repr

/-- Source `TestRunner._parse_android_metrics`: for every logcat line containing
`METRIC:`, split the remainder on `=`; on exactly two fields, store the value
as float (if it contains `.`), as int, or as the raw string when conversion
raises `ValueError`. -/
def parseAndroidMetrics (logcat : List Char) : Metrics :=
  (splitLines logcat).foldl
    (fun metrics line =>
      if containsSub "METRIC:".data line then
        let metricStr := pyStrip ((pySplitSub "METRIC:".data line).getD 1 [])
        let metricParts := splitOnChar '=' metricStr
        if metricParts.length = 2 then
          let key := pyStrip (metricParts.getD 0 [])
          let value := pyStrip (metricParts.getD 1 [])
          let v : MetricValue :=
            if value.contains '.' then
              match pyFloatOf value with
              | some q => .num q
              | none => .str (String.mk value)
            else
              match pyIntOf value with
              | some i => .int i
              | none => .str (String.mk value)
          setKey metrics (String.mk key) v
        else metrics
      else metrics)
    []

/-- Source `TestRunner._parse_ios_metrics`: for every line whose lowercase form
contains `measured` and which contains `average:`, parse the first
whitespace-separated token after `average:` as a float; failures are
swallowed (`except: pass`). -/
def parseIOSMetrics (output : List Char) : Metrics :=
  (splitLines output).foldl
    (fun metrics line =>
      if containsSub "measured".data (line.map Char.toLower) then
        if containsSub "average:".data line then
          let parts := pySplitSub "average:".data line
          if parts.length > 1 then
            match (pyWhitespaceSplit (parts.getD 1 [])).head? with
            | some value =>
              match pyFloatOf value with
              | some q => setKey metrics "average" (.num q)
              | none => metrics
            | none => metrics
          else metrics
        else metrics
      else metrics)
    []

/-- Source `TestRunner._run_android_test`: clear logcat, run the instrumented test
bounded by the spec's timeout, then dump logcat and parse metrics.  A
`TimeoutExpired` from any of the three subprocesses returns
`(False, "Test timed out", metrics-so-far)` — and `metrics` is still the
empty dict at every exception point; any other exception returns its
message. -/
def run_android_test (env : ExecEnv) : Bool × String × Metrics :=
  match env.clearLogcat with
  | .timedOut => (false, "Test timed out", [])
  | .err m => (false, m, [])
  | .ok _ =>
    match env.testProc with
    | .timedOut => (false, "Test timed out", [])
    | .err m => (false, m, [])
    | .ok stdout =>
      let success := !containsSub "FAILURES!!!".data stdout
      match env.dumpLogcat with
      | .timedOut => (false, "Test timed out", [])
      | .err m => (false, m, [])
      | .ok logcat => (success, String.mk stdout, parseAndroidMetrics logcat)

/-- Source `TestRunner._run_ios_test`: run `xcodebuild test` bounded by the spec's
timeout; success iff stdout contains `TEST SUCCEEDED`. -/
def run_ios_test (env : ExecEnv) : Bool × String × Metrics :=
  match env.testProc with
  | .timedOut => (false, "Test timed out", [])
  | .err m => (false, m, [])
  | .ok stdout =>
    (containsSub "TEST SUCCEEDED".data stdout, String.mk stdout,
      parseIOSMetrics stdout)

/-- The platform branch of `TestRunner.run_test_on_device`. -/
def runPlatformTest (dev : Device) (env : ExecEnv) : Bool × String × Metrics :=
  if dev.platform = "android" then run_android_test env else run_ios_test env

/-- Source `TestRunner.run_test_on_device`: refresh status (pre-snapshot), run the
platform test, refresh status again (post-snapshot), compute
`battery_drain = initial_battery - device.battery_level` and merge
`battery_drain` / `final_battery` / `temperature` into the metrics, append
one `TestResult`.  Returns the updated registry and the appended result. -/
def run_test_on_device (mgr : Registry) (dev : Device) (test : TestSpec)
    (env : ExecEnv) : Registry × TestResult :=
  let mgr1 := update_device_status mgr dev.id env.preQuery
  let d1 := (alookup mgr1 dev.id).getD dev
  let initial_battery := d1.battery_level
  let p := runPlatformTest dev env
  let mgr2 := update_device_status mgr1 dev.id env.postQuery
  let d2 := (alookup mgr2 dev.id).getD d1
  let battery_drain := initial_battery - d2.battery_level
  let metrics :=
    setKey (setKey (setKey p.2.2 "battery_drain" (.int battery_drain))
        "final_battery" (.int d2.battery_level))
      "temperature" (.num d2.temperature)
  (mgr2,
    { device_id := dev.id
      test_name := test.name
      success := p.1
      duration := env.duration
      timestamp := env.timestamp
      output := p.2.1
      metrics := metrics })

/-- The `(test, device)` submission order of `TestRunner.run_parallel_tests`:
`for test in self.test_suite: for device in self.device_manager.devices.values()`. -/
def allPairs (suite : List TestSpec) (devices : List Device) :
    List (TestSpec × Device) :=
  match suite with
  | [] => []
  | t :: ts => devices.map (fun d => (t, d)) ++ allPairs ts devices

/-- Run every submitted `(test, device)` pair in order, threading the device
registry; each pair's execution appends exactly one result.  (The thread
pool is serialised; see the module comment.) -/
def runPairs (envf : TestSpec → Device → ExecEnv) :
    Registry → List (TestSpec × Device) → Registry × List TestResult
  | mgr, [] => (mgr, [])
  | mgr, (t, d) :: rest =>
    let step := run_test_on_device mgr d t (envf t d)
    let more := runPairs envf step.1 rest
    (more.1, step.2 :: more.2)

/-- Source `TestRunner.run_parallel_tests`: submit the cross product of the test
suite and the discovered devices to the worker pool and collect every
result.  The worker pool is serialised in submission order (any completion
order yields the same result multiset; no claim below depends on order). -/
def run_parallel_tests (mgr : Registry) (suite : List TestSpec)
    (envf : TestSpec → Device → ExecEnv) : Registry × List TestResult :=
  runPairs envf mgr (allPairs suite (mgr.map Prod.snd))

/-! ## Report generation (orchestrator.ReportGenerator)

The markdown emitter is embedded by the structured numeric content of the
rendered document (header counts, device-summary rows, per-test summary
blocks); pure text around those values is not modelled.  `:.0f` / `:.1f`
formatting is embedded as round-half-to-even of the value (in whole
percents / tenths of a percent respectively). -/

/-- One row of the markdown device-summary table.  `passed`/`total` are the
counts the row's status cell is computed from; `statusPct` is the rendered
`"{pass_rate:.0f}% pass"` value, `none` for `"No tests"`.  Both battery
columns render `device.battery_level`. -/
structure DeviceRow where
  name : String
  platform : String
  os_version : String
  batteryStart : Int
  batteryEnd : Int
  passed : Nat
  total : Nat
  statusPct : Option Int
deriving DecidableEq, Repr

/-- The device-summary row for one device (the per-device body of
`generate_markdown_report`). -/
def deviceRow (results : List TestResult) (d : Device) : DeviceRow :=
  let device_results := results.filter (fun r => r.device_id = d.id)
  let passed := device_results.countP (fun r => r.success)
  let total := device_results.length
  { name := d.name
    platform := d.platform
    os_version := d.os_version
    batteryStart := d.battery_level
    batteryEnd := d.battery_level
    passed := passed
    total := total
    statusPct :=
      if device_results.isEmpty then none
      else some (roundHalfEven ((passed : Rat) / (total : Rat) * 100)) }

/-- One per-test block of the markdown test summary.  `passRateTenths` is the
rendered `"{passed/total*100:.1f}"` value in tenths of a percent. -/
structure TestBlock where
  test_name : String
  passed : Nat
  total : Nat
  passRateTenths : Int
  avgDuration : Rat
deriving DecidableEq, Repr

/-- The test-summary block for one test name. -/
def testBlock (results : List TestResult) (tname : String) : TestBlock :=
  let test_results := results.filter (fun r => r.test_name = tname)
  let passed := test_results.countP (fun r => r.success)
  let total := test_results.length
  { test_name := tname
    passed := passed
    total := total
    passRateTenths :=
      roundHalfEven ((passed : Rat) / (total : Rat) * 100 * 10)
    avgDuration := (test_results.map (fun r => r.duration)).sum / (total : Rat) }

/-- The structured numeric content of
`ReportGenerator.generate_markdown_report`.  `testNames` models
`list(set(r.test_name for r in self.results))` (each distinct name once;
Python's set iteration order is arbitrary, embedded as `List.dedup`). -/
structure MarkdownModel where
  devicesTested : Nat
  totalTestsRun : Nat
  deviceRows : List DeviceRow
  testBlocks : List TestBlock
deriving DecidableEq, Repr

/-- Source `ReportGenerator.generate_markdown_report` (structured content). -/
def generate_markdown_model (devices : List Device)
    (results : List TestResult) : MarkdownModel :=
  { devicesTested := devices.length
    totalTestsRun := results.length
    deviceRows := devices.map (deviceRow results)
    testBlocks :=
      ((results.map (fun r => r.test_name)).dedup).map (testBlock results) }

/-- Source `ReportGenerator.generate_json_report`: metadata plus verbatim device and
result lists. -/
structure JsonReport where
  generated : String
  devices_tested : Nat
  total_tests : Nat
  devices : List Device
  results : List TestResult
deriving DecidableEq, Repr

/-- Source `ReportGenerator.generate_json_report`. -/
def generate_json_report (devices : List Device) (results : List TestResult)
    (now : String) : JsonReport :=
  { generated := now
    devices_tested := devices.length
    total_tests := results.length
    devices := devices
    results := results }

/-- The per-device pass count derivable from a structured report's results
list.  Modelled from the spec: "the per-device pass counts derivable from
the structured report's results list" — count of successful results whose
`device_id` matches. -/
def derivedPassCount (rs : List TestResult) (id : String) : Nat :=
  (rs.filter (fun r => r.device_id = id)).countP (fun r => r.success)

/-- The per-device result count derivable from a structured report's results
list (companion of `derivedPassCount`). -/
def derivedTotalCount (rs : List TestResult) (id : String) : Nat :=
  (rs.filter (fun r => r.device_id = id)).length

/-! ## Performance monitoring (performance_monitor.py) -/

/-- Source `performance_monitor.PerformanceMetrics`: one telemetry sample. -/
structure PerformanceMetrics where
  timestamp : String
  device_id : String
  platform : String
  cpu_usage : Rat
  memory_usage : Rat
  memory_available : Rat
  network_rx_bytes : Int
  network_tx_bytes : Int
  battery_level : Rat
  battery_temperature : Rat
  fps : Option Rat := none
  frame_drops : Int := 0
deriving DecidableEq, Repr

/-- Python `min(values)` on a non-empty list (`0` is never consulted: every
use site is guarded by non-emptiness, as in the code where `min([])`
raises). -/
def listMin : List Rat → Rat
  | [] => 0
  | x :: xs => xs.foldl min x

/-- Python `max(values)` on a non-empty list. -/
def listMax : List Rat → Rat
  | [] => 0
  | x :: xs => xs.foldl max x

/-- Python `statistics.mean` (exact; the Python module also computes exactly). -/
def listMean (l : List Rat) : Rat :=
  l.sum / (l.length : Rat)

/-- Insert into a sorted list (ascending). -/
def insertSorted (x : Rat) : List Rat → List Rat
  | [] => [x]
  | y :: ys => if x ≤ y then x :: y :: ys else y :: insertSorted x ys

/-- Sort ascending (insertion sort; the sort underlying
`statistics.median`). -/
def sortRats (l : List Rat) : List Rat :=
  l.foldr insertSorted []

/-- Python `statistics.median`: middle element of the sorted list, or the mean of
the two middle elements for even length. -/
def pyMedian (l : List Rat) : Rat :=
  let s := sortRats l
  let n := l.length
  if n % 2 = 1 then s.getD (n / 2) 0
  else (s.getD (n / 2 - 1) 0 + s.getD (n / 2) 0) / 2

/-- The sample variance `Σ (x - x̄)² / (n - 1)` — the square of
`statistics.stdev` (standard deviations are represented throughout by their
squares, keeping the embedding in exact arithmetic). -/
def sampleVariance (l : List Rat) : Rat :=
  let m := listMean l
  (l.map (fun x => (x - m) ^ 2)).sum / ((l.length : Rat) - 1)

/-- The statistics record returned by `PerformanceAnalyzer._analyze_metric`;
`stdevSq` is the square of the reported `stdev` field. -/
structure MetricStats where
  statMin : Rat
  statMax : Rat
  avg : Rat
  median : Rat
  stdevSq : Rat
deriving DecidableEq, Repr

/-- Source `PerformanceAnalyzer._analyze_metric`: `min`/`max`/`mean`/`median` over
the values and `statistics.stdev(values) if len(values) > 1 else 0`.  On an
empty list `min(values)` raises `ValueError` (`none`). -/
def analyzeMetric (values : List Rat) : Option MetricStats :=
  match values with
  | [] => none
  | _ :: _ =>
    some
      { statMin := listMin values
        statMax := listMax values
        avg := listMean values
        median := pyMedian values
        stdevSq := if 1 < values.length then sampleVariance values else 0 }

/-- The `network` sub-report of `PerformanceAnalyzer.generate_report`. -/
structure NetworkReport where
  rx_total_kb : Rat
  tx_total_kb : Rat
  rx_rate_kbps : Rat
  tx_rate_kbps : Rat
deriving DecidableEq, Repr

/-- The `battery` sub-report of `PerformanceAnalyzer.generate_report`. -/
structure BatteryReport where
  start_level : Rat
  end_level : Rat
  drain_rate : Rat
  avg_temperature : Rat
deriving DecidableEq, Repr

/-- The `graphics` sub-report (`PerformanceAnalyzer._analyze_graphics`);
`avg_fps`/`min_fps` are `None` when no sample carried an fps value. -/
structure GraphicsReport where
  avg_fps : Option Rat
  min_fps : Option Rat
  total_frame_drops : Int
  drop_rate : Rat
deriving DecidableEq, Repr

/-- Source `PerformanceAnalyzer._analyze_graphics`. -/
def analyzeGraphics (metrics : List PerformanceMetrics) : GraphicsReport :=
  let fps_values := metrics.filterMap (fun m => m.fps)
  let total_drops := (metrics.map (fun m => m.frame_drops)).sum
  match fps_values with
  | [] =>
    { avg_fps := none, min_fps := none, total_frame_drops := 0, drop_rate := 0 }
  | _ :: _ =>
    { avg_fps := some (listMean fps_values)
      min_fps := some (listMin fps_values)
      total_frame_drops := total_drops
      drop_rate := (total_drops : Rat) / (metrics.length : Rat) }

/-- One device's entry in `PerformanceAnalyzer.generate_report`. -/
structure DeviceReport where
  platform : String
  samples : Nat
  duration_seconds : Nat
  cpu : MetricStats
  memory : MetricStats
  network : NetworkReport
  battery : BatteryReport
  graphics : GraphicsReport
deriving DecidableEq, Repr

/-- The loop body of `PerformanceAnalyzer.generate_report` for one device's
sample series (reached only for non-empty series; an empty series would make
`metrics[0]` and `_analyze_metric` raise, hence `none`). -/
def analyzeDevice (metrics : List PerformanceMetrics) : Option DeviceReport :=
  match metrics with
  | [] => none
  | m0 :: _ =>
    match analyzeMetric (metrics.map (fun m => m.cpu_usage)),
        analyzeMetric (metrics.map (fun m => m.memory_usage)) with
    | some cpu, some mem =>
      some
        { platform := m0.platform
          samples := metrics.length
          duration_seconds := metrics.length
          cpu := cpu
          memory := mem
          network :=
            { rx_total_kb :=
                ((metrics.map (fun m => m.network_rx_bytes)).sum : Rat) / 1024
              tx_total_kb :=
                ((metrics.map (fun m => m.network_tx_bytes)).sum : Rat) / 1024
              rx_rate_kbps :=
                listMean (metrics.map (fun m => (m.network_rx_bytes : Rat))) /
                  1024
              tx_rate_kbps :=
                listMean (metrics.map (fun m => (m.network_tx_bytes : Rat))) /
                  1024 }
          battery :=
            { start_level := m0.battery_level
              end_level := (metrics.getLastD m0).battery_level
              drain_rate :=
                (m0.battery_level - (metrics.getLastD m0).battery_level) /
                  (metrics.length : Rat)
              avg_temperature :=
                listMean (metrics.map (fun m => m.battery_temperature)) }
          graphics := analyzeGraphics metrics }
    | _, _ => none

/-- The `for device_id, metrics in self.metrics_history.items()` loop of
`PerformanceAnalyzer.generate_report`: an empty series is skipped
(`if not metrics: continue`); otherwise its analysis is added under the
device id.  A raised analysis (never reached: series here are non-empty)
would abort the whole report (`none`). -/
def reportDevices :
    List (String × List PerformanceMetrics) →
      Option (List (String × DeviceReport))
  | [] => some []
  | (d, ms) :: rest =>
    if ms.isEmpty then reportDevices rest
    else
      match analyzeDevice ms with
      | none => none
      | some r => (reportDevices rest).map (fun l => (d, r) :: l)

/-- Source `PerformanceAnalyzer.generate_report`: timestamp plus the per-device
reports. -/
structure PerfReport where
  timestamp : String
  devices : List (String × DeviceReport)
deriving DecidableEq, Repr

/-- Source `PerformanceAnalyzer.generate_report`. -/
def generate_report (now : String)
    (history : List (String × List PerformanceMetrics)) : Option PerfReport :=
  (reportDevices history).map (fun l => { timestamp := now, devices := l })

/-! ## The metric sampler (performance_monitor.DeviceMonitor)

`start_monitoring` spawns a thread running `_monitor_loop`:
`while self.monitoring: m = collect_metrics(); if m: queue.put(m); sleep(1)`.
`stop_monitoring` sets `self.monitoring = False` and then
`self.monitor_thread.join()`, which blocks until the loop thread has exited.
The two threads are embedded as a labelled transition system whose atomic
steps are the individual reads/writes of the shared flag and queue:
the loop thread is at `top` (about to test the flag) or `mid` (flag tested
true, about to run one iteration body, whose `put` still happens even if the
flag is cleared concurrently), and reaches `done` when the test fails; the
stopping thread has set the flag (`flagSet`) and completes the join
(`returned`) only once the loop is `done`. -/

/-- Program counter of the `_monitor_loop` thread. -/
inductive LoopPC
  | top
  | mid
  | done
deriving DecidableEq, Repr

/-- Program counter of the thread calling `stop_monitoring`. -/
inductive StopPC
  | notCalled
  | flagSet
  | returned
deriving DecidableEq, Repr

/-- Shared state of a `DeviceMonitor` and its two threads;
`samples` is the log of everything ever `put` on `metrics_queue`. -/
structure SamplerState where
  monitoring : Bool
  loopPC : LoopPC
  stopPC : StopPC
  samples : List PerformanceMetrics
deriving Repr

/-- State right after `start_monitoring` spawned the loop thread. -/
def samplerInit : SamplerState :=
  { monitoring := true, loopPC := .top, stopPC := .notCalled, samples := [] }

/-- Interleaved small-step semantics of the monitor loop and
`stop_monitoring`. -/
inductive SamplerStep : SamplerState → SamplerState → Prop
  | checkTrue (s : SamplerState) (h1 : s.loopPC = .top)
      (h2 : s.monitoring = true) :
      SamplerStep s { s with loopPC := .mid }
  | checkFalse (s : SamplerState) (h1 : s.loopPC = .top)
      (h2 : s.monitoring = false) :
      SamplerStep s { s with loopPC := .done }
  | putSample (s : SamplerState) (m : PerformanceMetrics)
      (h : s.loopPC = .mid) :
      SamplerStep s { s with loopPC := .top, samples := s.samples ++ [m] }
  | putNone (s : SamplerState) (h : s.loopPC = .mid) :
      SamplerStep s { s with loopPC := .top }
  | stopSetFlag (s : SamplerState) (h : s.stopPC = .notCalled) :
      SamplerStep s { s with monitoring := false, stopPC := .flagSet }
  | stopJoin (s : SamplerState) (h1 : s.stopPC = .flagSet)
      (h2 : s.loopPC = .done) :
      SamplerStep s { s with stopPC := .returned }

/-! ## Helper lemmas: dict operations -/

theorem alookup_setKey_same (l : Metrics) (k : String) (v : MetricValue) :
    alookup (setKey l k v) k = some v := by
  induction l with
  | nil => simp [setKey, alookup]
  | cons kv rest ih =>
    obtain ⟨k', v'⟩ := kv
    by_cases h : k' = k
    · simp [setKey, h, alookup]
    · simp [setKey, h, alookup, ih]

theorem alookup_setKey_other (l : Metrics) (k k' : String) (v : MetricValue)
    (h : k ≠ k') : alookup (setKey l k' v) k = alookup l k := by
  induction l with
  | nil => simp [setKey, alookup, Ne.symm h]
  | cons kv rest ih =>
    obtain ⟨k₀, v₀⟩ := kv
    by_cases h0 : k₀ = k'
    · subst h0
      simp [setKey, alookup, Ne.symm h, h]
    · by_cases h1 : k₀ = k
      · simp [setKey, alookup, h0, h1, h]
      · simp [setKey, alookup, h0, h1, ih]

theorem alookup_updateEntries_other (l : Registry) (did id : String)
    (q : StatusQuery) (h : id ≠ did) :
    alookup (updateEntries did q l) id = alookup l id := by
  induction l with
  | nil => rfl
  | cons kd rest ih =>
    obtain ⟨k, d⟩ := kd
    simp only [updateEntries]
    by_cases hk : k = did
    · rw [if_pos hk]
      simp only [alookup]
      rw [if_neg (fun h1 => h (h1.symm.trans hk)),
        if_neg (fun h1 => h (h1.symm.trans hk))]
      exact ih
    · rw [if_neg hk]
      simp only [alookup]
      by_cases h1 : k = id
      · rw [if_pos h1, if_pos h1]
      · rw [if_neg h1, if_neg h1]
        exact ih

/-- A status refresh of one device never modifies any other device's record. -/
theorem alookup_update_device_status_other (mgr : Registry) (did id : String)
    (q : StatusQuery) (h : id ≠ did) :
    alookup (update_device_status mgr did q) id = alookup mgr id := by
  unfold update_device_status
  cases hl : alookup mgr did with
  | none => rfl
  | some d => exact alookup_updateEntries_other mgr did id q h

/-! ## Helper lemmas: shape of `run_test_on_device` -/

/-- The device record as read right after the pre-execution status refresh
(the code's `initial_battery` read). -/
def preSnapshot (mgr : Registry) (dev : Device) (env : ExecEnv) : Device :=
  (alookup (update_device_status mgr dev.id env.preQuery) dev.id).getD dev

/-- The device record as read right after the post-execution status refresh
(the code's `device.battery_level` / `device.temperature` reads). -/
def postSnapshot (mgr : Registry) (dev : Device) (env : ExecEnv) : Device :=
  (alookup
      (update_device_status (update_device_status mgr dev.id env.preQuery)
        dev.id env.postQuery)
      dev.id).getD
    (preSnapshot mgr dev env)

theorem run_test_registry_eq (mgr : Registry) (dev : Device) (test : TestSpec)
    (env : ExecEnv) :
    (run_test_on_device mgr dev test env).1 =
      update_device_status (update_device_status mgr dev.id env.preQuery)
        dev.id env.postQuery := rfl

theorem run_test_device_id (mgr : Registry) (dev : Device) (test : TestSpec)
    (env : ExecEnv) :
    (run_test_on_device mgr dev test env).2.device_id = dev.id := rfl

theorem run_test_test_name (mgr : Registry) (dev : Device) (test : TestSpec)
    (env : ExecEnv) :
    (run_test_on_device mgr dev test env).2.test_name = test.name := rfl

theorem run_test_success_eq (mgr : Registry) (dev : Device) (test : TestSpec)
    (env : ExecEnv) :
    (run_test_on_device mgr dev test env).2.success =
      (runPlatformTest dev env).1 := rfl

theorem run_test_output_eq (mgr : Registry) (dev : Device) (test : TestSpec)
    (env : ExecEnv) :
    (run_test_on_device mgr dev test env).2.output =
      (runPlatformTest dev env).2.1 := rfl

theorem run_test_metrics_eq (mgr : Registry) (dev : Device) (test : TestSpec)
    (env : ExecEnv) :
    (run_test_on_device mgr dev test env).2.metrics =
      setKey
        (setKey
          (setKey (runPlatformTest dev env).2.2 "battery_drain"
            (.int ((preSnapshot mgr dev env).battery_level -
              (postSnapshot mgr dev env).battery_level)))
          "final_battery" (.int (postSnapshot mgr dev env).battery_level))
        "temperature" (.num (postSnapshot mgr dev env).temperature) := rfl

/-! ## Helper lemmas: the scheduler's cross product -/

theorem runPairs_map_key (envf : TestSpec → Device → ExecEnv)
    (ps : List (TestSpec × Device)) :
    ∀ mgr : Registry,
      ((runPairs envf mgr ps).2).map (fun r => (r.device_id, r.test_name)) =
        ps.map (fun td => (td.2.id, td.1.name)) := by
  induction ps with
  | nil => intro mgr; rfl
  | cons td rest ih =>
    intro mgr
    obtain ⟨t, d⟩ := td
    simp only [runPairs, List.map_cons]
    rw [ih]
    rfl

theorem runPairs_length (envf : TestSpec → Device → ExecEnv)
    (ps : List (TestSpec × Device)) (mgr : Registry) :
    (runPairs envf mgr ps).2.length = ps.length := by
  have h := congrArg List.length (runPairs_map_key envf ps mgr)
  simpa using h

theorem allPairs_length (suite : List TestSpec) (devices : List Device) :
    (allPairs suite devices).length = suite.length * devices.length := by
  induction suite with
  | nil => simp [allPairs]
  | cons t ts ih =>
    simp only [allPairs, List.length_append, List.length_map, ih,
      List.length_cons, Nat.succ_mul]
    ring

theorem allPairs_key_snd_mem (ts : List TestSpec) (devices : List Device)
    (x : String × String)
    (hx : x ∈ (allPairs ts devices).map (fun td => (td.2.id, td.1.name))) :
    x.2 ∈ ts.map TestSpec.name := by
  induction ts with
  | nil => simp [allPairs] at hx
  | cons t ts ih =>
    simp only [allPairs, List.map_append, List.mem_append] at hx
    rcases hx with h | h
    · simp only [List.map_map, List.mem_map, Function.comp] at h
      obtain ⟨d, _, rfl⟩ := h
      simp
    · simp [ih h]

theorem allPairs_keys_nodup (suite : List TestSpec) (devices : List Device)
    (hn : (suite.map TestSpec.name).Nodup)
    (hd : (devices.map Device.id).Nodup) :
    ((allPairs suite devices).map (fun td => (td.2.id, td.1.name))).Nodup := by
  induction suite with
  | nil => simp [allPairs]
  | cons t ts ih =>
    simp only [List.map_cons, List.nodup_cons] at hn
    obtain ⟨hname, hn'⟩ := hn
    simp only [allPairs, List.map_append]
    refine List.Nodup.append ?_ (ih hn') ?_
    · have hrw :
          ((devices.map (fun d => (t, d))).map
              (fun td => (td.2.id, td.1.name)) : List (String × String)) =
            (devices.map Device.id).map (fun i => (i, t.name)) := by
        simp [List.map_map, Function.comp]
      rw [hrw]
      exact hd.map (fun a b hab => by simpa using congrArg Prod.fst hab)
    · intro x hxl hxr
      have h2 : x.2 ∈ ts.map TestSpec.name := allPairs_key_snd_mem ts devices x hxr
      simp only [List.map_map, List.mem_map, Function.comp] at hxl
      obtain ⟨dv, _, rfl⟩ := hxl
      exact hname h2

/-! ## Helper lemmas: the performance analyzer -/

theorem analyzeMetric_cons (v : Rat) (vs : List Rat) :
    analyzeMetric (v :: vs) =
      some
        { statMin := listMin (v :: vs)
          statMax := listMax (v :: vs)
          avg := listMean (v :: vs)
          median := pyMedian (v :: vs)
          stdevSq :=
            if 1 < (v :: vs).length then sampleVariance (v :: vs) else 0 } :=
  rfl

theorem analyzeDevice_cons (m0 : PerformanceMetrics)
    (tail : List PerformanceMetrics) :
    analyzeDevice (m0 :: tail) =
      some
        { platform := m0.platform
          samples := (m0 :: tail).length
          duration_seconds := (m0 :: tail).length
          cpu :=
            { statMin := listMin ((m0 :: tail).map (fun m => m.cpu_usage))
              statMax := listMax ((m0 :: tail).map (fun m => m.cpu_usage))
              avg := listMean ((m0 :: tail).map (fun m => m.cpu_usage))
              median := pyMedian ((m0 :: tail).map (fun m => m.cpu_usage))
              stdevSq :=
                if 1 < ((m0 :: tail).map (fun m => m.cpu_usage)).length then
                  sampleVariance ((m0 :: tail).map (fun m => m.cpu_usage))
                else 0 }
          memory :=
            { statMin := listMin ((m0 :: tail).map (fun m => m.memory_usage))
              statMax := listMax ((m0 :: tail).map (fun m => m.memory_usage))
              avg := listMean ((m0 :: tail).map (fun m => m.memory_usage))
              median := pyMedian ((m0 :: tail).map (fun m => m.memory_usage))
              stdevSq :=
                if 1 < ((m0 :: tail).map (fun m => m.memory_usage)).length then
                  sampleVariance ((m0 :: tail).map (fun m => m.memory_usage))
                else 0 }
          network :=
            { rx_total_kb :=
                (((m0 :: tail).map (fun m => m.network_rx_bytes)).sum : Rat) /
                  1024
              tx_total_kb :=
                (((m0 :: tail).map (fun m => m.network_tx_bytes)).sum : Rat) /
                  1024
              rx_rate_kbps :=
                listMean
                    ((m0 :: tail).map (fun m => (m.network_rx_bytes : Rat))) /
                  1024
              tx_rate_kbps :=
                listMean
                    ((m0 :: tail).map (fun m => (m.network_tx_bytes : Rat))) /
                  1024 }
          battery :=
            { start_level := m0.battery_level
              end_level := ((m0 :: tail).getLastD m0).battery_level
              drain_rate :=
                (m0.battery_level -
                    ((m0 :: tail).getLastD m0).battery_level) /
                  ((m0 :: tail).length : Rat)
              avg_temperature :=
                listMean ((m0 :: tail).map (fun m => m.battery_temperature)) }
          graphics := analyzeGraphics (m0 :: tail) } := rfl

theorem analyzeDevice_cons_eq (m0 : PerformanceMetrics)
    (tail : List PerformanceMetrics) :
    ∃ r, analyzeDevice (m0 :: tail) = some r ∧
      r.battery.drain_rate =
        (m0.battery_level - ((m0 :: tail).getLastD m0).battery_level) /
          ((m0 :: tail).length : Rat) ∧
      r.samples = (m0 :: tail).length :=
  ⟨_, analyzeDevice_cons m0 tail, rfl, rfl⟩

theorem reportDevices_isSome (h : List (String × List PerformanceMetrics)) :
    ∃ l, reportDevices h = some l := by
  induction h with
  | nil => exact ⟨[], rfl⟩
  | cons e rest ih =>
    obtain ⟨d, ms⟩ := e
    obtain ⟨l, hl⟩ := ih
    cases ms with
    | nil => exact ⟨l, by simpa [reportDevices] using hl⟩
    | cons m0 tail =>
      obtain ⟨r, hr, -, -⟩ := analyzeDevice_cons_eq m0 tail
      exact ⟨(d, r) :: l, by simp [reportDevices, hr, hl]⟩

theorem reportDevices_lookup (history : List (String × List PerformanceMetrics))
    (d : String) (ms : List PerformanceMetrics)
    (hmem : (d, ms) ∈ history) (hnd : (history.map Prod.fst).Nodup)
    (hne : ms ≠ []) :
    ∃ l r, reportDevices history = some l ∧ alookup l d = some r ∧
      analyzeDevice ms = some r := by
  induction history with
  | nil => cases hmem
  | cons e rest ih =>
    obtain ⟨k, ms'⟩ := e
    simp only [List.map_cons, List.nodup_cons] at hnd
    obtain ⟨hknotin, hnd'⟩ := hnd
    rcases List.mem_cons.mp hmem with heq | hmem'
    · rw [Prod.mk.injEq] at heq
      obtain ⟨rfl, rfl⟩ := heq
      cases ms with
      | nil => exact absurd rfl hne
      | cons m0 tail =>
        obtain ⟨l, hl⟩ := reportDevices_isSome rest
        obtain ⟨r, hr, -, -⟩ := analyzeDevice_cons_eq m0 tail
        refine ⟨(d, r) :: l, r, ?_, ?_, hr⟩
        · simp [reportDevices, hr, hl]
        · simp [alookup]
    · have hkne : k ≠ d := by
        intro hkd
        subst hkd
        exact hknotin (List.mem_map_of_mem Prod.fst hmem')
      obtain ⟨l, r, hl, hlook, hr⟩ := ih hmem' hnd'
      cases ms' with
      | nil =>
        exact ⟨l, r, by simpa [reportDevices] using hl, hlook, hr⟩
      | cons m0 tail =>
        obtain ⟨r', hr', -, -⟩ := analyzeDevice_cons_eq m0 tail
        refine ⟨(k, r') :: l, r, ?_, ?_, hr⟩
        · simp [reportDevices, hr', hl]
        · simp [alookup, hkne, hlook]

/-! ## Concrete fixtures for the witnesses -/

/-- A concrete Android device fixture. -/
def devW1 : Device :=
  { id := "emulator-5554", platform := "android", name := "Pixel 7",
    os_version := "Android 14", ble_version := "5.0+",
    battery_level := 80, temperature := 25 }

/-- A concrete iOS device fixture. -/
def devW2 : Device :=
  { id := "00008110-000A5C1E0144801E", platform := "ios", name := "iPhone 15",
    os_version := "iOS 17.4", ble_version := "5.0+",
    battery_level := 90, temperature := 30 }

/-- A concrete two-device registry. -/
def mgrW : Registry := [(devW1.id, devW1), (devW2.id, devW2)]

/-- A concrete test spec (first entry of the loaded suite). -/
def testW : TestSpec :=
  { name := "BLEDiscoveryTest", timeout := 30,
    description := "Test BLE device discovery" }

/-- A concrete execution environment in which the test subprocess exceeds
its timeout and the status queries fail (records retained). -/
def envW : ExecEnv :=
  { preQuery := none, clearLogcat := .ok [], testProc := .timedOut,
    dumpLogcat := .ok [], postQuery := none,
    timestamp := "2026-01-01T00:00:00", duration := 0 }

/-! ## Sampler invariants (for claim C4) -/

/-- Along any reachable execution, `stop_monitoring` can only have returned
once the loop thread has exited (join semantics). -/
theorem sampler_stop_implies_done (s : SamplerState)
    (hreach : Relation.ReflTransGen SamplerStep samplerInit s) :
    s.stopPC = .returned → s.loopPC = .done := by
  induction hreach with
  | refl => intro h; simp [samplerInit] at h
  | tail hab hbc ih =>
    intro hret
    cases hbc with
    | checkTrue h1 h2 =>
      exact absurd ((ih hret).symm.trans h1)
        (by decide : ¬LoopPC.done = LoopPC.top)
    | checkFalse h1 h2 => rfl
    | putSample m h =>
      exact absurd ((ih hret).symm.trans h)
        (by decide : ¬LoopPC.done = LoopPC.mid)
    | putNone h =>
      exact absurd ((ih hret).symm.trans h)
        (by decide : ¬LoopPC.done = LoopPC.mid)
    | stopSetFlag h => simp at hret
    | stopJoin h1 h2 => exact h2

/-- Once the loop thread has exited, no further step enqueues a sample. -/
theorem sampler_done_frozen (s sf : SamplerState) (hdone : s.loopPC = .done)
    (hsteps : Relation.ReflTransGen SamplerStep s sf) :
    sf.samples = s.samples ∧ sf.loopPC = .done := by
  induction hsteps with
  | refl => exact ⟨rfl, hdone⟩
  | tail hab hbc ih =>
    obtain ⟨hsam, hd⟩ := ih
    cases hbc with
    | checkTrue h1 h2 =>
      exact absurd (hd.symm.trans h1) (by decide : ¬LoopPC.done = LoopPC.top)
    | checkFalse h1 h2 =>
      exact absurd (hd.symm.trans h1) (by decide : ¬LoopPC.done = LoopPC.top)
    | putSample m h =>
      exact absurd (hd.symm.trans h) (by decide : ¬LoopPC.done = LoopPC.mid)
    | putNone h =>
      exact absurd (hd.symm.trans h) (by decide : ¬LoopPC.done = LoopPC.mid)
    | stopSetFlag h => exact ⟨hsam, hd⟩
    | stopJoin h1 h2 => exact ⟨hsam, hd⟩

/-! ## The claims -/

/-- Claim C1: for every run over the registered devices and the suite's test
specs, the scheduler submits every (test, device) pair exactly once and each
execution appends exactly one `TestResult`, so exactly `M × N` results exist
at the end of the run; their `(device_id, test_name)` keys are exactly the
submitted pairs, and — test names being unique in the suite and device ids
unique in the registry — those keys are pairwise distinct. -/
theorem scheduler_cross_product_results (mgr : Registry)
    (suite : List TestSpec) (envf : TestSpec → Device → ExecEnv) :
    (run_parallel_tests mgr suite envf).2.length =
        suite.length * (mgr.map Prod.snd).length ∧
    ((run_parallel_tests mgr suite envf).2.map
        (fun r => (r.device_id, r.test_name))) =
      (allPairs suite (mgr.map Prod.snd)).map
        (fun td => (td.2.id, td.1.name)) ∧
    ((suite.map TestSpec.name).Nodup →
      ((mgr.map Prod.snd).map Device.id).Nodup →
      ((run_parallel_tests mgr suite envf).2.map
          (fun r => (r.device_id, r.test_name))).Nodup) := by
  refine ⟨?_, ?_, ?_⟩
  · unfold run_parallel_tests
    rw [runPairs_length, allPairs_length]
  · unfold run_parallel_tests
    exact runPairs_map_key envf (allPairs suite (mgr.map Prod.snd)) mgr
  · intro hn hd
    unfold run_parallel_tests
    rw [runPairs_map_key]
    exact allPairs_keys_nodup suite (mgr.map Prod.snd) hn hd

/-- Witness for C1 at a concrete two-device registry and the real five-test
suite: the 10 produced results have pairwise-distinct keys. -/
theorem scheduler_cross_product_results_witness :
    ((run_parallel_tests mgrW load_test_suite (fun _ _ => envW)).2.map
        (fun r => (r.device_id, r.test_name))).Nodup :=
  (scheduler_cross_product_results mgrW load_test_suite (fun _ _ => envW)).2.2
    (by decide) (by decide)

/-- Claim C4: once `stop_monitoring` has returned (the flag was cleared and
the loop thread joined), the sampler's collected series never grows: every
state reachable from a stopped state carries exactly the same sample log, so
any later `collect`/`get_metrics` read sees a fixed set of samples. -/
theorem stop_monitoring_freezes_samples (s sf : SamplerState)
    (hreach : Relation.ReflTransGen SamplerStep samplerInit s)
    (hstop : s.stopPC = .returned)
    (hsteps : Relation.ReflTransGen SamplerStep s sf) :
    sf.samples = s.samples :=
  (sampler_done_frozen s sf (sampler_stop_implies_done s hreach hstop)
    hsteps).1

/-- Witness for C4: a concrete reachable stopped state (flag cleared, loop
exited, join returned) whose sample log no longer changes. -/
theorem stop_monitoring_freezes_samples_witness :
    ({ monitoring := false, loopPC := .done, stopPC := .returned,
        samples := [] } : SamplerState).samples =
      ({ monitoring := false, loopPC := .done, stopPC := .returned,
          samples := [] } : SamplerState).samples :=
  stop_monitoring_freezes_samples _ _
    (Relation.ReflTransGen.tail
      (Relation.ReflTransGen.tail
        (Relation.ReflTransGen.single (SamplerStep.stopSetFlag samplerInit rfl))
        (SamplerStep.checkFalse _ rfl rfl))
      (SamplerStep.stopJoin _ rfl rfl))
    rfl Relation.ReflTransGen.refl

/-- Claim C2: an execution whose test-run subprocess exceeds
`TestSpec.timeout` produces a `TestResult` with `success = false` and
`output` exactly `"Test timed out"`, whose metrics consist of exactly what
had been captured before the forced stop (nothing — the metric parse never
ran) merged with the bracketing battery snapshot keys; the exception is
caught, so the execution returns normally. -/
theorem timeout_execution_result (mgr : Registry) (dev : Device)
    (test : TestSpec) (env : ExecEnv)
    (htimeout : env.testProc = .timedOut)
    (hclear : dev.platform = "android" → ∃ out, env.clearLogcat = .ok out) :
    (run_test_on_device mgr dev test env).2.success = false ∧
    (run_test_on_device mgr dev test env).2.output = "Test timed out" ∧
    (run_test_on_device mgr dev test env).2.metrics =
      [("battery_drain",
          .int ((preSnapshot mgr dev env).battery_level -
            (postSnapshot mgr dev env).battery_level)),
        ("final_battery", .int (postSnapshot mgr dev env).battery_level),
        ("temperature", .num (postSnapshot mgr dev env).temperature)] := by
  have hp : runPlatformTest dev env = (false, "Test timed out", []) := by
    unfold runPlatformTest
    by_cases hplat : dev.platform = "android"
    · obtain ⟨out, hout⟩ := hclear hplat
      rw [if_pos hplat]
      unfold run_android_test
      rw [hout, htimeout]
    · rw [if_neg hplat]
      unfold run_ios_test
      rw [htimeout]
  have hbd : ("battery_drain" : String) ≠ "final_battery" := by decide
  have hbt : ("battery_drain" : String) ≠ "temperature" := by decide
  have hft : ("final_battery" : String) ≠ "temperature" := by decide
  refine ⟨?_, ?_, ?_⟩
  · rw [run_test_success_eq, hp]
  · rw [run_test_output_eq, hp]
  · rw [run_test_metrics_eq, hp]
    simp [setKey, hbd, hbt, hft]

/-- Witness for C2: a concrete timed-out Android execution yields the exact
output string and a `false` success flag. -/
theorem timeout_execution_result_witness :
    (run_test_on_device mgrW devW1 testW envW).2.success = false ∧
    (run_test_on_device mgrW devW1 testW envW).2.output = "Test timed out" :=
  ⟨(timeout_execution_result mgrW devW1 testW envW rfl
      (fun _ => ⟨[], rfl⟩)).1,
   (timeout_execution_result mgrW devW1 testW envW rfl
      (fun _ => ⟨[], rfl⟩)).2.1⟩

/-- Claim C3: every execution's result metrics contain `battery_drain` and
`final_battery`, with `battery_drain` equal to the device's battery level as
read at the pre-execution status refresh minus the level read at the
post-execution refresh; and an execution running on any other device never
touches this device's registry record, so the value is unaffected by
concurrent executions on other devices. -/
theorem battery_metrics_bracketing (mgr : Registry) (dev : Device)
    (test : TestSpec) (env : ExecEnv) :
    alookup (run_test_on_device mgr dev test env).2.metrics "battery_drain" =
        some (.int ((preSnapshot mgr dev env).battery_level -
          (postSnapshot mgr dev env).battery_level)) ∧
    alookup (run_test_on_device mgr dev test env).2.metrics "final_battery" =
        some (.int (postSnapshot mgr dev env).battery_level) ∧
    (∀ (otherMgr : Registry) (otherDev : Device) (otherTest : TestSpec)
        (otherEnv : ExecEnv), dev.id ≠ otherDev.id →
      alookup (run_test_on_device otherMgr otherDev otherTest otherEnv).1
          dev.id =
        alookup otherMgr dev.id) := by
  refine ⟨?_, ?_, ?_⟩
  · rw [run_test_metrics_eq,
      alookup_setKey_other _ _ _ _ (by decide),
      alookup_setKey_other _ _ _ _ (by decide),
      alookup_setKey_same]
  · rw [run_test_metrics_eq,
      alookup_setKey_other _ _ _ _ (by decide),
      alookup_setKey_same]
  · intro otherMgr otherDev otherTest otherEnv hne
    rw [run_test_registry_eq,
      alookup_update_device_status_other _ _ _ _ hne,
      alookup_update_device_status_other _ _ _ _ hne]

/-- Witness for C3: the concrete execution's `battery_drain` entry equals the
bracketing snapshot difference, and an execution on the other device leaves
this device's record untouched. -/
theorem battery_metrics_bracketing_witness :
    alookup (run_test_on_device mgrW devW1 testW envW).2.metrics
        "battery_drain" =
      some (.int ((preSnapshot mgrW devW1 envW).battery_level -
        (postSnapshot mgrW devW1 envW).battery_level)) ∧
    alookup (run_test_on_device mgrW devW2 testW envW).1 devW1.id =
      alookup mgrW devW1.id :=
  ⟨(battery_metrics_bracketing mgrW devW1 testW envW).1,
   (battery_metrics_bracketing mgrW devW1 testW envW).2.2 mgrW devW2 testW envW
     (by decide)⟩

/-- The concrete device used to exhibit the partial in-place status update. -/
def devC5 : Device :=
  { id := "emulator-5556", platform := "android", name := "Galaxy S23",
    os_version := "Android 14", ble_version := "5.0+",
    battery_level := 80, temperature := 25 }

/-- Claim C5, counterexample: a status refresh whose battery line parses but
whose temperature line fails `int()` raises inside the parse loop — the
query fails, yet the device's prior record is NOT retained unchanged: the
battery field has already been overwritten in place. -/
theorem status_refresh_not_atomic :
    (updateAndroidStatus devC5
        (some "  level: 50\n  temperature: abc".data)).2 = true ∧
    (updateAndroidStatus devC5
        (some "  level: 50\n  temperature: abc".data)).1 ≠ devC5 := by
  constructor <;> decide

/-- Claim C5 as amended: only a failure of the status subprocess call itself
leaves the prior record entirely unchanged; the parse loop updates the
record in place field by field, so a parse failure partway through keeps the
fields assigned before the failing line (here: battery updated to the fresh
reading, temperature still stale); the failure is caught either way. -/
theorem status_refresh_amended (d : Device) :
    updateAndroidStatus d none = (d, true) ∧
    updateIOSStatus d none = (d, true) ∧
    (updateAndroidStatus devC5
        (some "  level: 50\n  temperature: abc".data)).1 =
      { devC5 with battery_level := 50 } :=
  ⟨rfl, rfl, by decide⟩

/-- Claim C6, counterexample: a zero-sample series does not yield a standard
deviation of 0 — `_analyze_metric` on an empty series raises (`min([])`),
and the aggregator never analyses it: the device is skipped entirely, so the
report holds no entry (and hence no stdev) for it. -/
theorem empty_series_yields_no_stats :
    analyzeMetric ([] : List Rat) = none ∧
    reportDevices [("device-1", [])] = some [] :=
  ⟨rfl, rfl⟩

/-- Claim C6 as amended: a series of length ≥ 2 yields the sample standard
deviation (represented by its square, `sampleVariance`); a one-sample series
yields standard deviation 0; min/max/mean/median are produced for every
non-empty series; a zero-sample series is never analysed — its device is
skipped — and report generation always completes without raising. -/
theorem metric_stats_by_length (values : List Rat)
    (history : List (String × List PerformanceMetrics)) (d : String)
    (rest : List (String × List PerformanceMetrics)) :
    (2 ≤ values.length →
      analyzeMetric values = some
        { statMin := listMin values, statMax := listMax values,
          avg := listMean values, median := pyMedian values,
          stdevSq := sampleVariance values }) ∧
    (values.length = 1 →
      analyzeMetric values = some
        { statMin := listMin values, statMax := listMax values,
          avg := listMean values, median := pyMedian values,
          stdevSq := 0 }) ∧
    (values ≠ [] → ∃ st, analyzeMetric values = some st) ∧
    (∃ l, reportDevices history = some l) ∧
    reportDevices ((d, []) :: rest) = reportDevices rest := by
  refine ⟨?_, ?_, ?_, reportDevices_isSome history, rfl⟩
  · intro h2
    cases values with
    | nil => simp at h2
    | cons v vs =>
      rw [analyzeMetric_cons, if_pos (by simpa using h2)]
  · intro h1
    obtain ⟨v, rfl⟩ := List.length_eq_one.mp h1
    rw [analyzeMetric_cons, if_neg (by simp)]
  · intro hne
    cases values with
    | nil => exact absurd rfl hne
    | cons v vs => exact ⟨_, analyzeMetric_cons v vs⟩

/-- Witness for C6 (amended) at a concrete two-sample series. -/
theorem metric_stats_by_length_witness :
    analyzeMetric [(1 : Rat), 2] = some
      { statMin := listMin [(1 : Rat), 2], statMax := listMax [(1 : Rat), 2],
        avg := listMean [(1 : Rat), 2], median := pyMedian [(1 : Rat), 2],
        stdevSq := sampleVariance [(1 : Rat), 2] } :=
  (metric_stats_by_length [(1 : Rat), 2] [] "d" []).1 (by decide)

/-- Claim C7: for every non-empty per-device series in the analyzer's
history (device keys unique), the generated report's entry for that device
reports `battery.drain_rate` equal to (first sample level − last sample
level) divided by the number of samples — count-normalised, not
elapsed-time-normalised. -/
theorem drain_rate_count_normalized
    (history : List (String × List PerformanceMetrics)) (d : String)
    (ms : List PerformanceMetrics) (hmem : (d, ms) ∈ history)
    (hnd : (history.map Prod.fst).Nodup) (hne : ms ≠ []) :
    ∃ l rep, reportDevices history = some l ∧ alookup l d = some rep ∧
      rep.battery.drain_rate =
        ((ms.head hne).battery_level - (ms.getLast hne).battery_level) /
          (ms.length : Rat) := by
  obtain ⟨l, r, hl, hlook, hr⟩ := reportDevices_lookup history d ms hmem hnd hne
  refine ⟨l, r, hl, hlook, ?_⟩
  cases ms with
  | nil => exact absurd rfl hne
  | cons m0 tail =>
    obtain ⟨r', hr', hdrain, -⟩ := analyzeDevice_cons_eq m0 tail
    rw [hr'] at hr
    obtain rfl : r' = r := Option.some.injEq _ _ ▸ hr
    rw [hdrain]
    rw [List.getLastD_eq_getLast?, List.getLast?_eq_getLast _ hne,
      Option.getD_some, List.head_cons]

/-- A concrete telemetry sample at a given battery level. -/
def pmW (lvl : Rat) : PerformanceMetrics :=
  { timestamp := "t", device_id := "emulator-5554", platform := "android",
    cpu_usage := 10, memory_usage := 100, memory_available := 1000,
    network_rx_bytes := 0, network_tx_bytes := 0,
    battery_level := lvl, battery_temperature := 30 }

/-- A concrete one-device analyzer history with a two-sample series. -/
def historyW : List (String × List PerformanceMetrics) :=
  [("emulator-5554", [pmW 80, pmW 78])]

/-- Witness for C7 at the concrete two-sample history. -/
theorem drain_rate_count_normalized_witness :
    ∃ l rep, reportDevices historyW = some l ∧
      alookup l "emulator-5554" = some rep ∧
      rep.battery.drain_rate =
        (([pmW 80, pmW 78].head (by decide)).battery_level -
            ([pmW 80, pmW 78].getLast (by decide)).battery_level) /
          (([pmW 80, pmW 78].length : Nat) : Rat) :=
  drain_rate_count_normalized historyW "emulator-5554" [pmW 80, pmW 78]
    (by decide) (by decide) (by decide)

/-- Three concrete results for one test, two passing and one failing. -/
def c8Results : List TestResult :=
  [ { device_id := "emulator-5554", test_name := "ConsensusTest",
      success := true, duration := 10, timestamp := "t1", output := "ok",
      metrics := [] },
    { device_id := "00008110-000A5C1E0144801E", test_name := "ConsensusTest",
      success := true, duration := 12, timestamp := "t2", output := "ok",
      metrics := [] },
    { device_id := "emulator-5556", test_name := "ConsensusTest",
      success := false, duration := 8, timestamp := "t3", output := "fail",
      metrics := [] } ]

/-- Claim C8: for every test name with at least one result, the markdown
summary contains a block whose pass counts are `passed`/`total` over all
results sharing that `test_name` and whose rendered pass rate is
`passed/total*100` at one-decimal rounding; in particular a test with 3
results of which 2 passed reports 66.7 %. -/
theorem pass_rate_aggregation :
    (∀ (devices : List Device) (results : List TestResult) (tname : String),
      tname ∈ results.map (fun r => r.test_name) →
      ∃ b ∈ (generate_markdown_model devices results).testBlocks,
        b.test_name = tname ∧
        b.passed =
          (results.filter (fun r => r.test_name = tname)).countP
            (fun r => r.success) ∧
        b.total = (results.filter (fun r => r.test_name = tname)).length ∧
        b.passRateTenths =
          roundHalfEven ((b.passed : Rat) / (b.total : Rat) * 100 * 10)) ∧
    (∃ b ∈ (generate_markdown_model [] c8Results).testBlocks,
      b.passed = 2 ∧ b.total = 3 ∧ b.passRateTenths = 667) := by
  constructor
  · intro devices results tname hmem
    exact ⟨testBlock results tname,
      List.mem_map_of_mem _ (List.mem_dedup.mpr hmem), rfl, rfl, rfl, rfl⟩
  · refine ⟨testBlock c8Results "ConsensusTest",
      List.mem_map_of_mem _
        (by decide :
          "ConsensusTest" ∈ (c8Results.map (fun r => r.test_name)).dedup),
      by decide, by decide, ?_⟩
    have h1 :
        (c8Results.filter (fun r => r.test_name = "ConsensusTest")).countP
          (fun r => r.success) = 2 := by decide
    have h2 :
        (c8Results.filter (fun r => r.test_name = "ConsensusTest")).length =
          3 := by decide
    simp only [testBlock, h1, h2]
    norm_num [roundHalfEven]

/-- Witness for C8: the general per-test block property applied to the
concrete three-result run. -/
theorem pass_rate_aggregation_witness :
    ∃ b ∈ (generate_markdown_model [] c8Results).testBlocks,
      b.test_name = "ConsensusTest" ∧
      b.passed =
        (c8Results.filter (fun r => r.test_name = "ConsensusTest")).countP
          (fun r => r.success) ∧
      b.total =
        (c8Results.filter (fun r => r.test_name = "ConsensusTest")).length ∧
      b.passRateTenths =
        roundHalfEven ((b.passed : Rat) / (b.total : Rat) * 100 * 10) :=
  pass_rate_aggregation.1 [] c8Results "ConsensusTest" (by decide)

/-- Claim C9: the structured (JSON) report and the structured content of the
human-readable (markdown) report generated from the same model state the
same total test count (and device count), and for every device the markdown
summary row's pass counts equal the per-device pass counts derivable from
the structured report's results list. -/
theorem reports_agree (devices : List Device) (results : List TestResult)
    (now : String) :
    (generate_json_report devices results now).total_tests =
        (generate_markdown_model devices results).totalTestsRun ∧
    (generate_json_report devices results now).devices_tested =
        (generate_markdown_model devices results).devicesTested ∧
    (∀ d ∈ devices,
      ∃ row ∈ (generate_markdown_model devices results).deviceRows,
        row.name = d.name ∧
        row.passed =
          derivedPassCount (generate_json_report devices results now).results
            d.id ∧
        row.total =
          derivedTotalCount (generate_json_report devices results now).results
            d.id) := by
  refine ⟨rfl, rfl, ?_⟩
  intro d hd
  exact ⟨deviceRow results d, List.mem_map_of_mem _ hd, rfl, rfl, rfl⟩

/-- Witness for C9 at a concrete device and result set. -/
theorem reports_agree_witness :
    ∃ row ∈ (generate_markdown_model [devW1] c8Results).deviceRows,
      row.name = devW1.name ∧
      row.passed =
        derivedPassCount (generate_json_report [devW1] c8Results "now").results
          devW1.id ∧
      row.total =
        derivedTotalCount
          (generate_json_report [devW1] c8Results "now").results devW1.id :=
  (reports_agree [devW1] c8Results "now").2.2 devW1 (by decide)

/-- Claim C10: in the markdown device-summary table, the Battery Start and
Battery End columns are equal for every device row — both render the device
record's single current `battery_level` field at report-generation time. -/
theorem battery_columns_identical (devices : List Device)
    (results : List TestResult) :
    ∀ row ∈ (generate_markdown_model devices results).deviceRows,
      row.batteryStart = row.batteryEnd := by
  intro row hrow
  simp only [generate_markdown_model, List.mem_map] at hrow
  obtain ⟨d, -, rfl⟩ := hrow
  rfl

/-- Witness for C10 at a concrete device row. -/
theorem battery_columns_identical_witness :
    (deviceRow ([] : List TestResult) devW1).batteryStart =
      (deviceRow ([] : List TestResult) devW1).batteryEnd :=
  battery_columns_identical [devW1] [] (deviceRow [] devW1)
    (by simp [generate_markdown_model])
